import Mathlib

/-!
Shallow embedding of the event-management admin tool (`src/app.py`).

The remote Supabase tables are modelled as lists of records inside a `Store`
value; each table operation of the app (filtered select, update, upsert)
becomes a pure function on `Store`.  Python dictionaries keyed by integer ids
are modelled as association lists with CPython insertion semantics
(`dictInsert`): assignment replaces in place when the key exists and appends
otherwise, so insertion order is preserved.
-/

namespace CloudTF

/-- A row of the `usuarios` table, together with the joined `roles(nombre)`
field that the login query selects (`select("*, roles(nombre)")`). -/
structure Usuario where
  id : Nat
  username : String
  password : Option String
  rol_id : Nat
  rol_nombre : String
  nombres : String
  apellidos : String
  correo : String
deriving DecidableEq

/-- A row of the `eventos` table. -/
structure Evento where
  id : Nat
  nombre : String
  fecha_evento : String
  usuario_creador_id : Nat
  limite_asistentes : Option Nat
  modelo_negocio_id : Option Nat
  facultad_id : Option Nat
  estado : String
deriving DecidableEq

/-- A row of the `eventos_asistentes` table (attendance records). -/
structure Registro where
  evento_id : Nat
  usuario_id : Nat
  registrado_en : String
  estado : String
deriving DecidableEq

/-- The remote database: the tables the claims touch.  A row of
`eventos_organizadores` is the pair (evento_id, usuario_id). -/
structure Store where
  usuarios : List Usuario
  eventos : List Evento
  eventos_organizadores : List (Nat × Nat)
  eventos_asistentes : List Registro
deriving DecidableEq

/-- Python-dict assignment `d[k] = v` on an association list: replace in
place when the key exists, append otherwise (CPython keeps insertion order). -/
def dictInsert {α : Type} (k : Nat) (v : α) (d : List (Nat × α)) : List (Nat × α) :=
  if d.any (fun p => p.1 == k) then
    d.map (fun p => if p.1 == k then (k, v) else p)
  else d ++ [(k, v)]

/-- Python-dict lookup `d.get(k)` on an association list. -/
def dictLookup {α : Type} (k : Nat) (d : List (Nat × α)) : Option α :=
  (d.find? (fun p => p.1 == k)).map Prod.snd

/-- The query `r1` of `get_eventos_para_organizador` (app.py lines 139-145):
ACTIVE events whose `usuario_creador_id` is the given user. -/
def eventosCreados (s : Store) (usuario_id : Nat) : List Evento :=
  s.eventos.filter (fun e =>
    e.usuario_creador_id == usuario_id && e.estado == "ACTIVO")

/-- The query `r2` of `get_eventos_para_organizador` (app.py lines 148-154):
ACTIVE events having an inner-join match in `eventos_organizadores` on the
given user. -/
def eventosCoorganizados (s : Store) (usuario_id : Nat) : List Evento :=
  s.eventos.filter (fun e =>
    s.eventos_organizadores.any (fun p => p.1 == e.id && p.2 == usuario_id)
      && e.estado == "ACTIVO")

/-- `get_eventos_para_organizador` (app.py lines 132-162): the rows of `r1`
then `r2` are written into a Python dict keyed by event id, and the dict's
values are returned. -/
def get_eventos_para_organizador (s : Store) (usuario_id : Nat) : List Evento :=
  ((eventosCreados s usuario_id ++ eventosCoorganizados s usuario_id).foldl
    (fun d e => dictInsert e.id e d) []).map Prod.snd

/-- Per-event summary counters built by `dashboard_view`
(app.py lines 543-554). -/
structure Resumen where
  registrados : Nat
  asistidos : Nat
deriving DecidableEq

/-- The two increment branches of the dashboard loop: a record with
`estado == "ASISTIDO"` bumps `asistidos`, any other record bumps
`registrados` (app.py lines 551-554). -/
def incResumen (asistido : Bool) (res : Resumen) : Resumen :=
  if asistido then { res with asistidos := res.asistidos + 1 }
  else { res with registrados := res.registrados + 1 }

/-- One iteration of the dashboard aggregation loop (app.py lines 547-554):
create the event's entry if absent, then apply the increment to it. -/
def pasoResumen (d : List (Nat × Resumen)) (r : Registro) : List (Nat × Resumen) :=
  (if d.any (fun p => p.1 == r.evento_id) then d
   else dictInsert r.evento_id ⟨0, 0⟩ d).map
    (fun p => if p.1 == r.evento_id
      then (p.1, incResumen (r.estado == "ASISTIDO") p.2) else p)

/-- The initialisation loop of `resumen` (app.py lines 543-545): an entry
`{registrados: 0, asistidos: 0}` per event id. -/
def resumenInit (eventos_ids : List Nat) : List (Nat × Resumen) :=
  eventos_ids.foldl (fun d i => dictInsert i ⟨0, 0⟩ d) []

/-- The dashboard aggregation (app.py lines 543-554): initialise, then walk
the attendance records. -/
def resumenPorEvento (eventos_ids : List Nat) (registros : List Registro) :
    List (Nat × Resumen) :=
  registros.foldl pasoResumen (resumenInit eventos_ids)

/-- Records of event `e` that the dashboard loop counts as `registrados`. -/
def cuentaRegistrados (l : List Registro) (e : Nat) : Nat :=
  (l.filter (fun r => r.evento_id == e && !(r.estado == "ASISTIDO"))).length

/-- Records of event `e` that the dashboard loop counts as `asistidos`. -/
def cuentaAsistidos (l : List Registro) (e : Nat) : Nat :=
  (l.filter (fun r => r.evento_id == e && r.estado == "ASISTIDO")).length

/-- One display row of `inscripciones_asistencia_view`
(app.py lines 675-685). -/
structure Fila where
  id_usuario : Nat
  username : String
  nombre : String
  correo : String
  registrado_en : String
  estado : String
deriving DecidableEq

/-- The one-level relational join `usuarios(...)` that
`inscripciones_asistencia_view` selects: the user row referenced by
`usuario_id`, if any. -/
def joinUsuario (s : Store) (r : Registro) : Option Usuario :=
  s.usuarios.find? (fun u => u.id == r.usuario_id)

/-- Python's `str.strip()` (an external primitive the row builders call):
drop whitespace from both ends.  Written over the character list so that it
evaluates, unlike `String.trim`. -/
def stripCadena (s : String) : String :=
  ⟨((s.data.dropWhile Char.isWhitespace).reverse.dropWhile
    Char.isWhitespace).reverse⟩

/-- Building one display row (app.py lines 676-685): `u = r.get("usuarios")
or {}` followed by `u.get(field, "")` accesses, and the full name is the
stripped concatenation of `nombres` and `apellidos`. -/
def filaDetalle (s : Store) (r : Registro) : Fila :=
  { id_usuario := r.usuario_id
    username := ((joinUsuario s r).map Usuario.username).getD ""
    nombre := stripCadena ((((joinUsuario s r).map Usuario.nombres).getD "")
      ++ " " ++ (((joinUsuario s r).map Usuario.apellidos).getD ""))
    correo := ((joinUsuario s r).map Usuario.correo).getD ""
    registrado_en := r.registrado_en
    estado := r.estado }

/-- One iteration of the partition loop of `inscripciones_asistencia_view`
(app.py lines 687-690): `ASISTIDO` rows go to the second list, all others to
the first. -/
def detallePaso (s : Store) (acc : List Fila × List Fila) (r : Registro) :
    List Fila × List Fila :=
  if r.estado == "ASISTIDO" then (acc.1, acc.2 ++ [filaDetalle s r])
  else (acc.1 ++ [filaDetalle s r], acc.2)

/-- The `(registrados, asistidos)` row lists of
`inscripciones_asistencia_view` (app.py lines 672-690). -/
def detalleVista (s : Store) (registros : List Registro) :
    List Fila × List Fila :=
  registros.foldl (detallePaso s) ([], [])

/-- One row of the Excel export of `dashboard_view`
(app.py lines 601-618). -/
structure FilaExcel where
  id_evento : Nat
  nombre_evento : String
  fecha_evento : String
  id_usuario : Nat
  username : String
  nombre_completo : String
  correo : String
  estado : String
  registrado_en : String
deriving DecidableEq

/-- Building one Excel row (app.py lines 602-618): `ev` and `u` come from
dict lookups defaulting to the empty dict, and every field access defaults
to the empty string. -/
def filaExcel (eventos_dict : List (Nat × Evento))
    (usuarios_dict : List (Nat × Usuario)) (r : Registro) : FilaExcel :=
  { id_evento := r.evento_id
    nombre_evento :=
      ((dictLookup r.evento_id eventos_dict).map Evento.nombre).getD ""
    fecha_evento :=
      ((dictLookup r.evento_id eventos_dict).map Evento.fecha_evento).getD ""
    id_usuario := r.usuario_id
    username :=
      ((dictLookup r.usuario_id usuarios_dict).map Usuario.username).getD ""
    nombre_completo := stripCadena
      ((((dictLookup r.usuario_id usuarios_dict).map Usuario.nombres).getD "")
        ++ " " ++
        (((dictLookup r.usuario_id usuarios_dict).map Usuario.apellidos).getD
          ""))
    correo :=
      ((dictLookup r.usuario_id usuarios_dict).map Usuario.correo).getD ""
    estado := r.estado
    registrado_en := r.registrado_en }

/-- The soft delete behind the `Eliminar` button (app.py lines 294-303):
`update({"estado": "INACTIVO"}).eq("id", ev["id"])` on the `eventos` table.
No other table and no other column is touched. -/
def eliminarEvento (s : Store) (evento_id : Nat) : Store :=
  { s with eventos := s.eventos.map (fun e =>
      if e.id == evento_id then { e with estado := "INACTIVO" } else e) }

/-- The student branch of `lista_eventos_view` (app.py lines 249-256): all
events with `estado == "ACTIVO"`, no ownership filter. -/
def eventosEstudiante (s : Store) : List Evento :=
  s.eventos.filter (fun e => e.estado == "ACTIVO")

/-- `lista_eventos_view` (app.py lines 240-256): organizers get their
resolved events, everyone else gets all ACTIVE events. -/
def lista_eventos (s : Store) (usuario_id : Nat) (es_org : Bool) :
    List Evento :=
  if es_org then get_eventos_para_organizador s usuario_id
  else eventosEstudiante s

/-- Outcome shown by `login_view`: an error message or a successful login. -/
inductive LoginResult where
  | error (msg : String)
  | ok
deriving DecidableEq

/-- The per-session ambient state (`st.session_state`). -/
structure Session where
  perfil : Option Usuario
  evento_edit : Option Evento
deriving DecidableEq

/-- `login_view` (app.py lines 78-126).  `checkpw` abstracts
`bcrypt.checkpw` (plaintext, stored hash) → match.  The session is returned
unchanged on every failure branch; only a successful login writes
`perfil`. -/
def login_view (checkpw : String → String → Bool) (s : Store) (sess : Session)
    (username password : String) : Session × LoginResult :=
  if username == "" || password == "" then
    (sess, .error "Completa usuario y contraseña.")
  else
    match s.usuarios.filter (fun u => u.username == username) with
    | [] => (sess, .error "Usuario no encontrado.")
    | user_row :: _ =>
      match user_row.password with
      | none => (sess, .error "El usuario no tiene contraseña configurada.")
      | some stored_hash =>
        if stored_hash == "" then
          (sess, .error "El usuario no tiene contraseña configurada.")
        else if !(checkpw password stored_hash) then
          (sess, .error "Contraseña incorrecta.")
        else ({ sess with perfil := some user_row }, .ok)

/-- The store-layer enrollment (app.py line 498):
`supabase.table("eventos_organizadores").upsert(data)` — upsert on the
unique (evento_id, usuario_id) pair: replace if present (a no-op, the row
has no other column), insert otherwise. -/
def enrolar_organizador (s : Store) (evento_id usuario_id : Nat) : Store :=
  if s.eventos_organizadores.any
      (fun p => p.1 == evento_id && p.2 == usuario_id) then s
  else { s with eventos_organizadores :=
    s.eventos_organizadores ++ [(evento_id, usuario_id)] }

/-- The event targets offered by `enrolar_organizador_view` (app.py lines
417-425): every ACTIVE event, with no filter on the logged-in user. -/
def eventosParaEnrolar (s : Store) : List Evento :=
  s.eventos.filter (fun e => e.estado == "ACTIVO")

/-- The candidate users offered by `enrolar_organizador_view` (app.py lines
456-479): users with `rol_id == 2`, minus the event's creator and the
already-enrolled co-organizers. -/
def candidatosEnrolar (s : Store) (evento : Evento) : List Usuario :=
  (s.usuarios.filter (fun u => u.rol_id == 2)).filter (fun o =>
    o.id != evento.usuario_creador_id &&
    !(((s.eventos_organizadores.filter
        (fun p => p.1 == evento.id)).map Prod.snd).contains o.id))

/-- The role gate of `main_app` (app.py line 723):
`es_organizador = (rol_nombre == "ORGANIZADOR")`. -/
def es_organizador (perfil : Usuario) : Bool :=
  perfil.rol_nombre == "ORGANIZADOR"

/-- The event listing `main_app` routes the logged-in user to (app.py lines
725-746): the organizer tab calls `lista_eventos_view(id, True)`, every
other role gets `lista_eventos_view(id, False)`. -/
def mainAppEventos (s : Store) (perfil : Usuario) : List Evento :=
  lista_eventos s perfil.id (es_organizador perfil)

/-! ### A concrete store used to instantiate the theorems -/

/-- Organizer who created event 1 and co-organizes event 2. -/
def demoAna : Usuario :=
  { id := 1, username := "ana", password := some "hashA", rol_id := 2,
    rol_nombre := "ORGANIZADOR", nombres := "Ana", apellidos := "Diaz",
    correo := "ana@example.com" }

/-- Organizer who created events 2 and 3. -/
def demoBeto : Usuario :=
  { id := 2, username := "beto", password := some "hashB", rol_id := 2,
    rol_nombre := "ORGANIZADOR", nombres := "Beto", apellidos := "Lara",
    correo := "beto@example.com" }

/-- Student. -/
def demoCarla : Usuario :=
  { id := 3, username := "carla", password := some "hashC", rol_id := 1,
    rol_nombre := "ESTUDIANTE", nombres := "Carla", apellidos := "Mora",
    correo := "carla@example.com" }

def demoEvento1 : Evento :=
  { id := 1, nombre := "Feria", fecha_evento := "2026-01-10",
    usuario_creador_id := 1, limite_asistentes := none,
    modelo_negocio_id := none, facultad_id := none, estado := "ACTIVO" }

def demoEvento2 : Evento :=
  { id := 2, nombre := "Taller", fecha_evento := "2026-02-20",
    usuario_creador_id := 2, limite_asistentes := some 30,
    modelo_negocio_id := some 1, facultad_id := none, estado := "ACTIVO" }

def demoEvento3 : Evento :=
  { id := 3, nombre := "Charla", fecha_evento := "2026-03-05",
    usuario_creador_id := 2, limite_asistentes := none,
    modelo_negocio_id := none, facultad_id := none, estado := "INACTIVO" }

def demoReg1 : Registro :=
  { evento_id := 1, usuario_id := 3, registrado_en := "2026-01-01",
    estado := "REGISTRADO" }

def demoReg2 : Registro :=
  { evento_id := 1, usuario_id := 2, registrado_en := "2026-01-02",
    estado := "REGISTRADO" }

/-- A record whose `usuario_id` (99) matches no row of `usuarios`. -/
def demoReg3 : Registro :=
  { evento_id := 1, usuario_id := 99, registrado_en := "2026-01-03",
    estado := "ASISTIDO" }

def demoStore : Store :=
  { usuarios := [demoAna, demoBeto, demoCarla],
    eventos := [demoEvento1, demoEvento2, demoEvento3],
    eventos_organizadores := [(2, 1)],
    eventos_asistentes := [demoReg1, demoReg2, demoReg3] }

/-- A concrete stand-in for `bcrypt.checkpw`: the plaintext `"secreta"`
matches the stored hash `"hashA"`, nothing else matches. -/
def demoCheck (plano hash : String) : Bool :=
  plano == "secreta" && hash == "hashA"

/-- `demoEvento1` after the soft delete. -/
def demoEvento1Borrado : Evento := { demoEvento1 with estado := "INACTIVO" }

/-- A fresh session: nobody logged in. -/
def demoSession : Session := { perfil := none, evento_edit := none }

/-! ### Association-list dictionary lemmas -/

theorem mem_dictInsert {α : Type} {k : Nat} {v : α} {p : Nat × α}
    {d : List (Nat × α)} (h : p ∈ dictInsert k v d) : p = (k, v) ∨ p ∈ d := by
  unfold dictInsert at h
  split at h
  · rcases List.mem_map.1 h with ⟨q, hq, he⟩
    by_cases hk : (q.1 == k) = true
    · simp only [hk, if_true] at he
      exact Or.inl he.symm
    · simp only [hk, if_false] at he
      exact Or.inr (he ▸ hq)
  · rcases List.mem_append.1 h with h | h
    · exact Or.inr h
    · exact Or.inl (by simpa using h)

theorem dictInsert_forall {α : Type} {Q : Nat × α → Prop} {k : Nat} {v : α}
    {d : List (Nat × α)} (hd : ∀ p ∈ d, Q p) (hkv : Q (k, v)) :
    ∀ p ∈ dictInsert k v d, Q p := by
  intro p hp
  rcases mem_dictInsert hp with h | h
  · exact h ▸ hkv
  · exact hd p h

theorem keys_dictInsert {α : Type} (k : Nat) (v : α) (d : List (Nat × α)) :
    (dictInsert k v d).map Prod.fst =
      if d.any (fun p => p.1 == k) then d.map Prod.fst
      else d.map Prod.fst ++ [k] := by
  unfold dictInsert
  split
  · rw [List.map_map]
    refine List.map_congr_left ?_
    intro p _
    by_cases hk : (p.1 == k) = true
    · simp [Function.comp, hk, (beq_iff_eq.1 hk).symm]
    · simp [Function.comp, hk]
  · simp

theorem key_mem_dictInsert {α : Type} (k : Nat) (v : α) (d : List (Nat × α)) :
    k ∈ (dictInsert k v d).map Prod.fst := by
  rw [keys_dictInsert]
  split
  case isTrue h =>
    rcases List.any_eq_true.1 h with ⟨p, hp, hpk⟩
    exact (beq_iff_eq.1 hpk) ▸ List.mem_map.2 ⟨p, hp, rfl⟩
  case isFalse h => simp

theorem keys_mono_dictInsert {α : Type} {k' : Nat} (k : Nat) (v : α)
    {d : List (Nat × α)} (h : k' ∈ d.map Prod.fst) :
    k' ∈ (dictInsert k v d).map Prod.fst := by
  rw [keys_dictInsert]
  split <;> simp [h]

theorem nodup_keys_dictInsert {α : Type} (k : Nat) (v : α) {d : List (Nat × α)}
    (h : (d.map Prod.fst).Nodup) : ((dictInsert k v d).map Prod.fst).Nodup := by
  rw [keys_dictInsert]
  split
  case isTrue => exact h
  case isFalse hany =>
    have hk : k ∉ d.map Prod.fst := by
      intro hmem
      rcases List.mem_map.1 hmem with ⟨p, hp, he⟩
      exact hany (List.any_eq_true.2 ⟨p, hp, beq_iff_eq.2 he⟩)
    rw [List.nodup_append]
    exact ⟨h, List.nodup_singleton k,
      fun a ha hak => hk (by rwa [List.mem_singleton.1 hak] at ha)⟩

/-! ### Folding a list of events into a dict keyed by id -/

theorem foldl_dict_pairs {Q : Nat × Evento → Prop} :
    ∀ (l : List Evento) (d0 : List (Nat × Evento)),
      (∀ p ∈ d0, Q p) → (∀ e ∈ l, Q (e.id, e)) →
      ∀ p ∈ l.foldl (fun d e => dictInsert e.id e d) d0, Q p := by
  intro l
  induction l with
  | nil => intro d0 hd _ p hp; exact hd p (by simpa using hp)
  | cons x l ih =>
    intro d0 hd hl p hp
    exact ih (dictInsert x.id x d0)
      (dictInsert_forall hd (hl x (by simp)))
      (fun e he => hl e (by simp [he])) p (by simpa using hp)

theorem foldl_dict_key_mem {e : Evento} :
    ∀ (l : List Evento) (d0 : List (Nat × Evento)),
      (e ∈ l ∨ e.id ∈ d0.map Prod.fst) →
      e.id ∈ (l.foldl (fun d x => dictInsert x.id x d) d0).map Prod.fst := by
  intro l
  induction l with
  | nil =>
    intro d0 h
    simpa using h.resolve_left (by simp)
  | cons x l ih =>
    intro d0 h
    rcases h with h | h
    · rcases List.mem_cons.1 h with rfl | h
      · exact ih _ (Or.inr (key_mem_dictInsert _ _ _))
      · exact ih _ (Or.inl h)
    · exact ih _ (Or.inr (keys_mono_dictInsert _ _ h))

theorem foldl_dict_nodup :
    ∀ (l : List Evento) (d0 : List (Nat × Evento)),
      (d0.map Prod.fst).Nodup →
      ((l.foldl (fun d x => dictInsert x.id x d) d0).map Prod.fst).Nodup := by
  intro l
  induction l with
  | nil => intro d0 h; simpa using h
  | cons x l ih => intro d0 h; exact ih _ (nodup_keys_dictInsert _ _ h)

/-! ### Characterisation of the organizer event resolution -/

theorem mem_eventosCreados {s : Store} {uid : Nat} {e : Evento} :
    e ∈ eventosCreados s uid ↔
      e ∈ s.eventos ∧ e.usuario_creador_id = uid ∧ e.estado = "ACTIVO" := by
  simp [eventosCreados, List.mem_filter]

theorem mem_eventosCoorganizados {s : Store} {uid : Nat} {e : Evento} :
    e ∈ eventosCoorganizados s uid ↔
      e ∈ s.eventos ∧ (e.id, uid) ∈ s.eventos_organizadores ∧
        e.estado = "ACTIVO" := by
  simp only [eventosCoorganizados, List.mem_filter, Bool.and_eq_true,
    List.any_eq_true, beq_iff_eq]
  constructor
  · rintro ⟨hmem, ⟨p, hp, h1, h2⟩, hact⟩
    refine ⟨hmem, ?_, hact⟩
    have : p = (e.id, uid) := Prod.ext h1 h2
    exact this ▸ hp
  · rintro ⟨hmem, hp, hact⟩
    exact ⟨hmem, ⟨(e.id, uid), hp, rfl, rfl⟩, hact⟩

/-- Any member of `get_eventos_para_organizador` comes from `r1 ++ r2`. -/
theorem get_eventos_sub {s : Store} {uid : Nat} {e : Evento}
    (h : e ∈ get_eventos_para_organizador s uid) :
    e ∈ eventosCreados s uid ∨ e ∈ eventosCoorganizados s uid := by
  unfold get_eventos_para_organizador at h
  rcases List.mem_map.1 h with ⟨p, hp, he⟩
  have := foldl_dict_pairs (Q := fun p =>
      p.2 ∈ eventosCreados s uid ++ eventosCoorganizados s uid)
    _ [] (by simp) (fun x hx => hx) p hp
  have h2 : p.2 ∈ eventosCreados s uid ++ eventosCoorganizados s uid := this
  rw [he] at h2
  exact List.mem_append.1 h2

theorem mem_get_eventos_para_organizador {s : Store} {uid : Nat} {e : Evento}
    (hnd : (s.eventos.map Evento.id).Nodup) :
    e ∈ get_eventos_para_organizador s uid ↔
      e ∈ s.eventos ∧ e.estado = "ACTIVO" ∧
        (e.usuario_creador_id = uid ∨ (e.id, uid) ∈ s.eventos_organizadores) := by
  constructor
  · intro h
    rcases get_eventos_sub h with h | h
    · rcases mem_eventosCreados.1 h with ⟨h1, h2, h3⟩
      exact ⟨h1, h3, Or.inl h2⟩
    · rcases mem_eventosCoorganizados.1 h with ⟨h1, h2, h3⟩
      exact ⟨h1, h3, Or.inr h2⟩
  · rintro ⟨hmem, hact, hrel⟩
    have hL : e ∈ eventosCreados s uid ++ eventosCoorganizados s uid := by
      rcases hrel with h | h
      · exact List.mem_append.2 (Or.inl (mem_eventosCreados.2 ⟨hmem, h, hact⟩))
      · exact List.mem_append.2 (Or.inr (mem_eventosCoorganizados.2 ⟨hmem, h, hact⟩))
    have hkey := foldl_dict_key_mem
      (eventosCreados s uid ++ eventosCoorganizados s uid) [] (Or.inl hL)
    rcases List.mem_map.1 hkey with ⟨p, hp, hpk⟩
    have hq := foldl_dict_pairs (Q := fun p =>
        p.2 ∈ eventosCreados s uid ++ eventosCoorganizados s uid ∧ p.1 = p.2.id)
      _ [] (by simp) (fun x hx => ⟨hx, rfl⟩) p hp
    have hp2 : p.2 ∈ s.eventos := by
      rcases List.mem_append.1 hq.1 with h | h
      · exact (mem_eventosCreados.1 h).1
      · exact (mem_eventosCoorganizados.1 h).1
    have hide : p.2.id = e.id := by rw [← hq.2, hpk]
    have : p.2 = e := List.inj_on_of_nodup_map hnd hp2 hmem hide
    exact List.mem_map.2 ⟨p, hp, this⟩

/-- The organizer event resolution is de-duplicated by event id. -/
theorem get_eventos_nodup (s : Store) (uid : Nat) :
    ((get_eventos_para_organizador s uid).map Evento.id).Nodup := by
  unfold get_eventos_para_organizador
  rw [List.map_map]
  have hpairs : ∀ p ∈ (eventosCreados s uid ++ eventosCoorganizados s uid).foldl
      (fun d e => dictInsert e.id e d) [], (Evento.id ∘ Prod.snd) p = Prod.fst p :=
    foldl_dict_pairs _ [] (by simp) (fun x _ => rfl)
  rw [List.map_congr_left hpairs]
  exact foldl_dict_nodup _ [] (by simp)

/-! ### Claim C1 -/

/-- C1: an event E is in `get_eventos_para_organizador(U)` iff E's creator id
equals U or the pair (E.id, U) is in `eventos_organizadores`, and E's state is
`ACTIVO`; the merged result is de-duplicated by event id. -/
theorem C1_organizer_event_resolution (s : Store) (U : Nat) (E : Evento)
    (hnd : (s.eventos.map Evento.id).Nodup) :
    (E ∈ get_eventos_para_organizador s U ↔
      E ∈ s.eventos ∧ E.estado = "ACTIVO" ∧
        (E.usuario_creador_id = U ∨ (E.id, U) ∈ s.eventos_organizadores))
    ∧ ((get_eventos_para_organizador s U).map Evento.id).Nodup :=
  ⟨mem_get_eventos_para_organizador hnd, get_eventos_nodup s U⟩

/-- C1, instantiated: in the demo store, user 1 sees event 2 exactly because
of the co-organizer pair (2, 1). -/
theorem C1_witness :
    (demoStore.eventos.map Evento.id).Nodup ∧
    ((demoEvento2 ∈ get_eventos_para_organizador demoStore 1 ↔
      demoEvento2 ∈ demoStore.eventos ∧ demoEvento2.estado = "ACTIVO" ∧
        (demoEvento2.usuario_creador_id = 1 ∨
          (demoEvento2.id, 1) ∈ demoStore.eventos_organizadores))
     ∧ ((get_eventos_para_organizador demoStore 1).map Evento.id).Nodup) :=
  ⟨by decide, C1_organizer_event_resolution demoStore 1 demoEvento2 (by decide)⟩

example : get_eventos_para_organizador demoStore 1 = [demoEvento1, demoEvento2] := by decide

example : get_eventos_para_organizador demoStore 3 = [] := by decide

/-! ### Dashboard aggregation lemmas -/

/-- In-place value update of every entry with key `k` commutes with `find?`
for any queried key, because the update keeps each entry's key. -/
theorem find?_map_update {α : Type} (g : α → α) (k q : Nat) :
    ∀ d : List (Nat × α),
      (d.map (fun p => if p.1 == k then (p.1, g p.2) else p)).find?
          (fun p => p.1 == q)
        = (d.find? (fun p => p.1 == q)).map
            (fun p => if p.1 == k then (p.1, g p.2) else p) := by
  intro d
  induction d with
  | nil => rfl
  | cons x d ih =>
    simp only [List.map_cons, List.find?_cons]
    by_cases hk : (x.1 == k) = true
    · rw [if_pos hk]
      by_cases hq : (x.1 == q) = true
      · have hq2 : (((x.1, g x.2) : Nat × α).1 == q) = true := hq
        simp only [hq, hq2]
        refine congrArg some ?_
        show (x.1, g x.2) = if (x.1 == k) = true then (x.1, g x.2) else x
        rw [if_pos hk]
      · have hq' : ((x.1 : Nat) == q) = false := by simpa using hq
        have hq2 : (((x.1, g x.2) : Nat × α).1 == q) = false := hq'
        simp only [hq', hq2]
        exact ih
    · rw [if_neg hk]
      by_cases hq : (x.1 == q) = true
      · simp only [hq]
        refine congrArg some ?_
        show x = if (x.1 == k) = true then (x.1, g x.2) else x
        rw [if_neg hk]
      · have hq' : ((x.1 : Nat) == q) = false := by simpa using hq
        simp only [hq']
        exact ih

theorem dictLookup_pasoResumen_self (d : List (Nat × Resumen)) (r : Registro) :
    dictLookup r.evento_id (pasoResumen d r) =
      some (incResumen (r.estado == "ASISTIDO")
        ((dictLookup r.evento_id d).getD ⟨0, 0⟩)) := by
  unfold pasoResumen dictLookup
  by_cases hany : (d.any fun p => p.1 == r.evento_id) = true
  · rw [if_pos hany, find?_map_update]
    cases hfind : d.find? (fun p => p.1 == r.evento_id) with
    | none =>
      rcases List.any_eq_true.1 hany with ⟨p, hp, hpk⟩
      rw [List.find?_eq_none] at hfind
      exact absurd hpk (by simpa using hfind p hp)
    | some p =>
      have hpk : (p.1 == r.evento_id) = true :=
        List.find?_some (p := fun x : Nat × Resumen => x.1 == r.evento_id) hfind
      show some ((if (p.1 == r.evento_id) = true
        then (p.1, incResumen (r.estado == "ASISTIDO") p.2) else p).2) = _
      rw [if_pos hpk]
      rfl
  · rw [if_neg hany]
    have hd : ∀ p ∈ d, (p.1 == r.evento_id) = false := by
      intro p hp
      by_contra hne
      exact hany (List.any_eq_true.2 ⟨p, hp, by simpa using hne⟩)
    have hins : dictInsert r.evento_id (⟨0, 0⟩ : Resumen) d
        = d ++ [(r.evento_id, ⟨0, 0⟩)] := by
      unfold dictInsert
      rw [if_neg hany]
    have hfd : d.find? (fun p => p.1 == r.evento_id) = none :=
      List.find?_eq_none.2 (fun p hp => by simp [hd p hp])
    have hmap : d.map (fun p => if p.1 == r.evento_id
        then (p.1, incResumen (r.estado == "ASISTIDO") p.2) else p) = d := by
      have h1 : ∀ p ∈ d, (if p.1 == r.evento_id
          then (p.1, incResumen (r.estado == "ASISTIDO") p.2) else p)
            = id p := by
        intro p hp
        simp [hd p hp]
      rw [List.map_congr_left h1, List.map_id]
    rw [hins, List.map_append, hmap, List.find?_append, hfd]
    simp

theorem dictLookup_pasoResumen_other (d : List (Nat × Resumen)) (r : Registro)
    (k : Nat) (hk : (k == r.evento_id) = false) :
    dictLookup k (pasoResumen d r) = dictLookup k d := by
  unfold pasoResumen dictLookup
  by_cases hany : (d.any fun p => p.1 == r.evento_id) = true
  · rw [if_pos hany, find?_map_update]
    cases hfind : d.find? (fun p => p.1 == k) with
    | none => rfl
    | some p =>
      have hpk : (p.1 == k) = true :=
        List.find?_some (p := fun x : Nat × Resumen => x.1 == k) hfind
      have hne : ¬((p.1 == r.evento_id) = true) := by
      -- p's key is k, which differs from the record's event
        have h1 : p.1 = k := beq_iff_eq.1 hpk
        have h2 : k ≠ r.evento_id := by simpa using hk
        simp [h1, h2]
      show some ((if (p.1 == r.evento_id) = true
        then (p.1, incResumen (r.estado == "ASISTIDO") p.2) else p).2) = _
      rw [if_neg hne]
      rfl
  · rw [if_neg hany]
    have hd : ∀ p ∈ d, (p.1 == r.evento_id) = false := by
      intro p hp
      by_contra hne
      exact hany (List.any_eq_true.2 ⟨p, hp, by simpa using hne⟩)
    have hins : dictInsert r.evento_id (⟨0, 0⟩ : Resumen) d
        = d ++ [(r.evento_id, ⟨0, 0⟩)] := by
      unfold dictInsert
      rw [if_neg hany]
    have hmap : d.map (fun p => if p.1 == r.evento_id
        then (p.1, incResumen (r.estado == "ASISTIDO") p.2) else p) = d := by
      have h1 : ∀ p ∈ d, (if p.1 == r.evento_id
          then (p.1, incResumen (r.estado == "ASISTIDO") p.2) else p)
            = id p := by
        intro p hp
        simp [hd p hp]
      rw [List.map_congr_left h1, List.map_id]
    have hk2 : r.evento_id ≠ k := fun hh =>
      absurd (beq_iff_eq.2 hh.symm) (by simpa using hk)
    rw [hins, List.map_append, hmap, List.find?_append]
    have hsing : ([(r.evento_id, (⟨0, 0⟩ : Resumen))].map
        (fun p => if p.1 == r.evento_id
          then (p.1, incResumen (r.estado == "ASISTIDO") p.2) else p)).find?
            (fun p => p.1 == k) = none := by
      simp [hk2]
    rw [hsing, Option.or_none]

/-- The head record's contribution to the `registrados` counter. -/
theorem cuentaRegistrados_cons (r : Registro) (l : List Registro) (e : Nat) :
    cuentaRegistrados (r :: l) e =
      cuentaRegistrados l e +
        (if (r.evento_id == e && !(r.estado == "ASISTIDO")) = true
          then 1 else 0) := by
  unfold cuentaRegistrados
  rw [List.filter_cons]
  by_cases h : (r.evento_id == e && !(r.estado == "ASISTIDO")) = true <;>
    simp [h]

/-- The head record's contribution to the `asistidos` counter. -/
theorem cuentaAsistidos_cons (r : Registro) (l : List Registro) (e : Nat) :
    cuentaAsistidos (r :: l) e =
      cuentaAsistidos l e +
        (if (r.evento_id == e && r.estado == "ASISTIDO") = true
          then 1 else 0) := by
  unfold cuentaAsistidos
  rw [List.filter_cons]
  by_cases h : (r.evento_id == e && r.estado == "ASISTIDO") = true <;>
    simp [h]

theorem resumen_foldl_some (e : Nat) :
    ∀ (l : List Registro) (d : List (Nat × Resumen)) (res : Resumen),
      dictLookup e d = some res →
      dictLookup e (l.foldl pasoResumen d) =
        some ⟨res.registrados + cuentaRegistrados l e,
              res.asistidos + cuentaAsistidos l e⟩ := by
  intro l
  induction l with
  | nil =>
    intro d res h
    rw [List.foldl_nil, h]
    cases res
    simp [cuentaRegistrados, cuentaAsistidos]
  | cons r l ih =>
    intro d res h
    rw [List.foldl_cons]
    by_cases hre : (r.evento_id == e) = true
    · have he : r.evento_id = e := beq_iff_eq.1 hre
      have hself := dictLookup_pasoResumen_self d r
      rw [he, h] at hself
      have hself2 : dictLookup e (pasoResumen d r)
          = some (incResumen (r.estado == "ASISTIDO") res) := by
        simpa using hself
      rw [ih _ _ hself2, cuentaRegistrados_cons, cuentaAsistidos_cons]
      by_cases hs : (r.estado == "ASISTIDO") = true <;>
        simp [incResumen, hs, hre, Resumen.mk.injEq] <;> omega
    · have hne : (e == r.evento_id) = false := by
        have : e ≠ r.evento_id := fun hh =>
          absurd (beq_iff_eq.2 hh.symm) (by simpa using hre)
        simpa using this
      have hother := dictLookup_pasoResumen_other d r e hne
      rw [ih _ _ (by rw [hother]; exact h), cuentaRegistrados_cons,
        cuentaAsistidos_cons]
      simp [hre]

theorem resumen_foldl_none (e : Nat) :
    ∀ (l : List Registro) (d : List (Nat × Resumen)),
      dictLookup e d = none →
      dictLookup e (l.foldl pasoResumen d) =
        if (l.any (fun r => r.evento_id == e)) = true
        then some ⟨cuentaRegistrados l e, cuentaAsistidos l e⟩
        else none := by
  intro l
  induction l with
  | nil =>
    intro d h
    simpa using h
  | cons r l ih =>
    intro d h
    rw [List.foldl_cons]
    by_cases hre : (r.evento_id == e) = true
    · have he : r.evento_id = e := beq_iff_eq.1 hre
      have hself := dictLookup_pasoResumen_self d r
      rw [he, h] at hself
      have hself2 : dictLookup e (pasoResumen d r)
          = some (incResumen (r.estado == "ASISTIDO") ⟨0, 0⟩) := by
        simpa using hself
      rw [resumen_foldl_some e l _ _ hself2, cuentaRegistrados_cons,
        cuentaAsistidos_cons]
      have hany : ((r :: l).any (fun r => r.evento_id == e)) = true := by
        simp [List.any_cons, hre]
      rw [if_pos hany]
      by_cases hs : (r.estado == "ASISTIDO") = true <;>
        simp [incResumen, hs, hre, Resumen.mk.injEq] <;> omega
    · have hne : (e == r.evento_id) = false := by
        have : e ≠ r.evento_id := fun hh =>
          absurd (beq_iff_eq.2 hh.symm) (by simpa using hre)
        simpa using this
      have hother := dictLookup_pasoResumen_other d r e hne
      rw [ih _ (by rw [hother]; exact h), cuentaRegistrados_cons,
        cuentaAsistidos_cons]
      simp [hre, List.any_cons]

theorem resumenInit_values :
    ∀ (ids : List Nat) (d0 : List (Nat × Resumen)),
      (∀ p ∈ d0, p.2 = (⟨0, 0⟩ : Resumen)) →
      ∀ p ∈ ids.foldl (fun d i => dictInsert i ⟨0, 0⟩ d) d0,
        p.2 = (⟨0, 0⟩ : Resumen) := by
  intro ids
  induction ids with
  | nil =>
    intro d0 h
    simpa using h
  | cons i ids ih =>
    intro d0 h p hp
    exact ih _ (dictInsert_forall h rfl) p (by simpa using hp)

theorem dictLookup_resumenInit (ids : List Nat) (e : Nat) :
    dictLookup e (resumenInit ids) = none ∨
      dictLookup e (resumenInit ids) = some ⟨0, 0⟩ := by
  unfold dictLookup
  cases hfind : (resumenInit ids).find? (fun p => p.1 == e) with
  | none => exact Or.inl rfl
  | some p =>
    right
    have hp := List.mem_of_find?_eq_some hfind
    unfold resumenInit at hp
    have := resumenInit_values ids [] (by simp) p hp
    simp [this]

theorem cuenta_split (l : List Registro) (e : Nat) :
    cuentaRegistrados l e + cuentaAsistidos l e =
      (l.filter (fun r => r.evento_id == e)).length := by
  induction l with
  | nil => rfl
  | cons r l ih =>
    rw [cuentaRegistrados_cons, cuentaAsistidos_cons, List.filter_cons]
    by_cases h1 : (r.evento_id == e) = true
    · by_cases h2 : (r.estado == "ASISTIDO") = true <;>
        simp [h1, h2] <;> omega
    · simp [h1]
      omega

theorem detalleVista_length (s : Store) :
    ∀ (l : List Registro) (acc : List Fila × List Fila),
      (l.foldl (detallePaso s) acc).1.length
          + (l.foldl (detallePaso s) acc).2.length
        = acc.1.length + acc.2.length + l.length := by
  intro l
  induction l with
  | nil =>
    intro acc
    simp
  | cons r l ih =>
    intro acc
    rw [List.foldl_cons, ih]
    unfold detallePaso
    by_cases hs : (r.estado == "ASISTIDO") = true
    · rw [if_pos hs]
      simp
      omega
    · rw [if_neg hs]
      simp
      omega

/-! ### Claim C2 -/

/-- C2: the dashboard aggregation partitions each attendance record of an
event into exactly one of the two counters — `ASISTIDO` records into
`asistidos`, all others into `registrados` — so the two counters sum to the
number of records of that event; and the per-user detail view produces
exactly one row per record across its two tables. -/
theorem C2_attendance_aggregation (s : Store) (ids : List Nat)
    (registros : List Registro) (e : Nat) (res : Resumen)
    (h : dictLookup e (resumenPorEvento ids registros) = some res) :
    res.registrados = cuentaRegistrados registros e ∧
    res.asistidos = cuentaAsistidos registros e ∧
    res.registrados + res.asistidos =
      (registros.filter (fun r => r.evento_id == e)).length ∧
    (detalleVista s registros).1.length + (detalleVista s registros).2.length
      = registros.length := by
  have hres : res = ⟨cuentaRegistrados registros e,
      cuentaAsistidos registros e⟩ := by
    unfold resumenPorEvento at h
    rcases dictLookup_resumenInit ids e with h0 | h0
    · rw [resumen_foldl_none e registros _ h0] at h
      by_cases ha : (registros.any (fun r => r.evento_id == e)) = true
      · rw [if_pos ha] at h
        exact (Option.some.inj h).symm
      · rw [if_neg ha] at h
        cases h
    · rw [resumen_foldl_some e registros _ _ h0] at h
      simpa using (Option.some.inj h).symm
  refine ⟨by rw [hres], by rw [hres], ?_, ?_⟩
  · rw [hres]
    exact cuenta_split registros e
  · have := detalleVista_length s registros ([], [])
    simpa [detalleVista] using this

/-- C2, instantiated: 3 records of event 1, one of them `ASISTIDO`, yield
`{registrados: 2, asistidos: 1}`. -/
theorem C2_witness :
    dictLookup 1 (resumenPorEvento [1] [demoReg1, demoReg2, demoReg3])
        = some ⟨2, 1⟩ ∧
    ((⟨2, 1⟩ : Resumen).registrados
        = cuentaRegistrados [demoReg1, demoReg2, demoReg3] 1 ∧
     (⟨2, 1⟩ : Resumen).asistidos
        = cuentaAsistidos [demoReg1, demoReg2, demoReg3] 1 ∧
     (⟨2, 1⟩ : Resumen).registrados + (⟨2, 1⟩ : Resumen).asistidos =
       ([demoReg1, demoReg2, demoReg3].filter
         (fun r => r.evento_id == 1)).length ∧
     (detalleVista demoStore [demoReg1, demoReg2, demoReg3]).1.length +
       (detalleVista demoStore [demoReg1, demoReg2, demoReg3]).2.length
        = [demoReg1, demoReg2, demoReg3].length) :=
  ⟨by decide, C2_attendance_aggregation demoStore [1]
    [demoReg1, demoReg2, demoReg3] 1 ⟨2, 1⟩ (by decide)⟩

/-! ### Claim C3 -/

theorem mem_eliminarEvento {s : Store} {eid : Nat} {e : Evento}
    (h : e ∈ (eliminarEvento s eid).eventos) :
    ∃ e0 ∈ s.eventos,
      e = (if e0.id == eid then { e0 with estado := "INACTIVO" } else e0) := by
  rcases List.mem_map.1 h with ⟨e0, h0, he⟩
  exact ⟨e0, h0, he.symm⟩

theorem eliminarEvento_estado {s : Store} {eid : Nat} {e : Evento}
    (h : e ∈ (eliminarEvento s eid).eventos) (hid : e.id = eid) :
    e.estado = "INACTIVO" := by
  rcases mem_eliminarEvento h with ⟨e0, _, he⟩
  by_cases hk : (e0.id == eid) = true
  · rw [he, if_pos hk]
  · rw [he, if_neg hk] at hid ⊢
    exact absurd (beq_iff_eq.2 hid) hk

/-- C3: the delete action sets the event's state to `INACTIVO`; afterwards
the event is absent from the organizer listing and from the student
(ACTIVE-only) listing; the `eventos` row count is preserved, every field of
every event except `estado` is preserved, and the other three tables —
attendance records included — are untouched. -/
theorem C3_soft_delete (s : Store) (eid uid : Nat) (e : Evento) :
    (e ∈ (eliminarEvento s eid).eventos → e.id = eid →
      e.estado = "INACTIVO") ∧
    (e ∈ get_eventos_para_organizador (eliminarEvento s eid) uid →
      e.id ≠ eid) ∧
    (e ∈ eventosEstudiante (eliminarEvento s eid) → e.id ≠ eid) ∧
    (eliminarEvento s eid).eventos.length = s.eventos.length ∧
    (e ∈ s.eventos → ∃ e', e' ∈ (eliminarEvento s eid).eventos ∧
      e'.id = e.id ∧ e'.nombre = e.nombre ∧
      e'.fecha_evento = e.fecha_evento ∧
      e'.usuario_creador_id = e.usuario_creador_id ∧
      e'.limite_asistentes = e.limite_asistentes ∧
      e'.modelo_negocio_id = e.modelo_negocio_id ∧
      e'.facultad_id = e.facultad_id ∧
      e'.estado = (if e.id = eid then "INACTIVO" else e.estado)) ∧
    (eliminarEvento s eid).eventos_asistentes = s.eventos_asistentes ∧
    (eliminarEvento s eid).eventos_organizadores = s.eventos_organizadores ∧
    (eliminarEvento s eid).usuarios = s.usuarios := by
  refine ⟨fun h hid => eliminarEvento_estado h hid, ?_, ?_, ?_, ?_, rfl, rfl, rfl⟩
  · intro h hid
    have hact : e.estado = "ACTIVO" := by
      rcases get_eventos_sub h with h' | h'
      · exact (mem_eventosCreados.1 h').2.2
      · exact (mem_eventosCoorganizados.1 h').2.2
    have hmem : e ∈ (eliminarEvento s eid).eventos := by
      rcases get_eventos_sub h with h' | h'
      · exact (mem_eventosCreados.1 h').1
      · exact (mem_eventosCoorganizados.1 h').1
    have := eliminarEvento_estado hmem hid
    rw [hact] at this
    exact absurd this (by decide)
  · intro h hid
    have hmem := (List.mem_filter.1 h).1
    have hact : e.estado = "ACTIVO" :=
      beq_iff_eq.1 (List.mem_filter.1 h).2
    have := eliminarEvento_estado hmem hid
    rw [hact] at this
    exact absurd this (by decide)
  · exact List.length_map s.eventos _
  · intro h
    refine ⟨if e.id == eid then { e with estado := "INACTIVO" } else e,
      List.mem_map.2 ⟨e, h, rfl⟩, ?_⟩
    by_cases hk : (e.id == eid) = true
    · rw [if_pos hk, if_pos (beq_iff_eq.1 hk)]
      exact ⟨rfl, rfl, rfl, rfl, rfl, rfl, rfl, rfl⟩
    · rw [if_neg hk, if_neg (fun hh => hk (beq_iff_eq.2 hh))]
      exact ⟨rfl, rfl, rfl, rfl, rfl, rfl, rfl, rfl⟩

/-- C3, instantiated: deleting event 1 of the demo store turns its row
INACTIVO in place, keeps all three rows and all other fields, and leaves the
attendance table untouched. -/
theorem C3_witness :
    demoEvento1 ∈ demoStore.eventos ∧
    demoEvento1Borrado ∈ (eliminarEvento demoStore 1).eventos ∧
    demoEvento1Borrado.id = 1 ∧
    demoEvento1Borrado.estado = "INACTIVO" ∧
    (eliminarEvento demoStore 1).eventos.length = demoStore.eventos.length ∧
    (∃ e', e' ∈ (eliminarEvento demoStore 1).eventos ∧
      e'.id = demoEvento1.id ∧ e'.nombre = demoEvento1.nombre ∧
      e'.fecha_evento = demoEvento1.fecha_evento ∧
      e'.usuario_creador_id = demoEvento1.usuario_creador_id ∧
      e'.limite_asistentes = demoEvento1.limite_asistentes ∧
      e'.modelo_negocio_id = demoEvento1.modelo_negocio_id ∧
      e'.facultad_id = demoEvento1.facultad_id ∧
      e'.estado = (if demoEvento1.id = 1 then "INACTIVO"
        else demoEvento1.estado)) ∧
    (eliminarEvento demoStore 1).eventos_asistentes
      = demoStore.eventos_asistentes :=
  ⟨by decide, by decide, by decide,
    (C3_soft_delete demoStore 1 1 demoEvento1Borrado).1 (by decide) (by decide),
    (C3_soft_delete demoStore 1 1 demoEvento1Borrado).2.2.2.1,
    (C3_soft_delete demoStore 1 1 demoEvento1).2.2.2.2.1 (by decide),
    (C3_soft_delete demoStore 1 1 demoEvento1).2.2.2.2.2.1⟩

/-! ### Claim C4 -/

/-- C4 counterexample: with an existing username and a wrong password the
message is "Contraseña incorrecta.", while an unknown username gets
"Usuario no encontrado." — the two failure messages are distinct, so the
shown message does distinguish "user not found" from "wrong password",
contrary to the claim.  The session is unchanged in both cases. -/
theorem C4_counterexample :
    login_view demoCheck demoStore demoSession "ana" "mala"
      = (demoSession, .error "Contraseña incorrecta.") ∧
    login_view demoCheck demoStore demoSession "nadie" "mala"
      = (demoSession, .error "Usuario no encontrado.") ∧
    LoginResult.error "Contraseña incorrecta."
      ≠ LoginResult.error "Usuario no encontrado." := by
  decide

/-- C4 (amended): on a login attempt with an existing username and a wrong
password, the failure message is the password-specific
"Contraseña incorrecta." (the code does distinguish it from
"Usuario no encontrado."), and the session — hence its `perfil` — is
returned unchanged. -/
theorem C4_wrong_password_message (checkpw : String → String → Bool)
    (s : Store) (sess : Session) (username password hash : String)
    (u : Usuario) (l : List Usuario)
    (hu : (username == "") = false) (hp : (password == "") = false)
    (hfil : s.usuarios.filter (fun x => x.username == username) = u :: l)
    (hpw : u.password = some hash) (hh : (hash == "") = false)
    (hbad : checkpw password hash = false) :
    login_view checkpw s sess username password
      = (sess, .error "Contraseña incorrecta.") := by
  unfold login_view
  rw [hu, hp, hfil]
  simp [hpw, hh, hbad]

/-- C4 (amended), instantiated: user "ana" exists with hash "hashA"; the
password "mala" fails the check and the login returns the unchanged session
with the password-specific message. -/
theorem C4_witness :
    (("ana" == "") = false ∧ ("mala" == "") = false ∧
     demoStore.usuarios.filter (fun x => x.username == "ana") = [demoAna] ∧
     demoAna.password = some "hashA" ∧ ("hashA" == "") = false ∧
     demoCheck "mala" "hashA" = false) ∧
    login_view demoCheck demoStore demoSession "ana" "mala"
      = (demoSession, .error "Contraseña incorrecta.") :=
  ⟨⟨by decide, by decide, by decide, by decide, by decide, by decide⟩,
   C4_wrong_password_message demoCheck demoStore demoSession "ana" "mala"
     "hashA" demoAna [] (by decide) (by decide) (by decide) (by decide)
     (by decide) (by decide)⟩

/-! ### Claim C5 -/

theorem pair_mem_any {l : List (Nat × Nat)} {e u : Nat} :
    (l.any (fun p => p.1 == e && p.2 == u)) = true ↔ (e, u) ∈ l := by
  rw [List.any_eq_true]
  constructor
  · rintro ⟨⟨p1, p2⟩, hp, hq⟩
    rw [Bool.and_eq_true, beq_iff_eq, beq_iff_eq] at hq
    rcases hq with ⟨rfl, rfl⟩
    exact hp
  · intro h
    exact ⟨(e, u), h, by simp⟩

/-- The upsert leaves the pair present. -/
theorem enrolar_mem (s : Store) (e u : Nat) :
    (e, u) ∈ (enrolar_organizador s e u).eventos_organizadores := by
  unfold enrolar_organizador
  by_cases h : (s.eventos_organizadores.any
      (fun p => p.1 == e && p.2 == u)) = true
  · rw [if_pos h]
    exact pair_mem_any.1 h
  · rw [if_neg h]
    simp

/-- The upsert is a no-op when the pair is already present. -/
theorem enrolar_mem_noop (s : Store) (e u : Nat)
    (h : (e, u) ∈ s.eventos_organizadores) :
    enrolar_organizador s e u = s := by
  unfold enrolar_organizador
  rw [if_pos (pair_mem_any.2 h)]

/-- C5: enrolling the same (event, user) pair twice is the same as enrolling
it once, and after enrolling, the table holds the pair exactly once
(assuming the store's unique-pair invariant held before). -/
theorem C5_enrol_idempotent (s : Store) (e u : Nat)
    (hcount : s.eventos_organizadores.count (e, u) ≤ 1) :
    enrolar_organizador (enrolar_organizador s e u) e u
      = enrolar_organizador s e u ∧
    (enrolar_organizador s e u).eventos_organizadores.count (e, u) = 1 := by
  refine ⟨enrolar_mem_noop _ e u (enrolar_mem s e u), ?_⟩
  unfold enrolar_organizador
  by_cases h : (s.eventos_organizadores.any
      (fun p => p.1 == e && p.2 == u)) = true
  · rw [if_pos h]
    have hpos : 0 < s.eventos_organizadores.count (e, u) :=
      List.count_pos_iff.2 (pair_mem_any.1 h)
    omega
  · rw [if_neg h]
    have hzero : s.eventos_organizadores.count (e, u) = 0 :=
      List.count_eq_zero.2 (fun hmem => h (pair_mem_any.2 hmem))
    simp [List.count_append, hzero]

/-- C5, instantiated: enrolling user 2 into event 1 twice equals enrolling
once, and the pair appears exactly once. -/
theorem C5_witness :
    demoStore.eventos_organizadores.count (1, 2) ≤ 1 ∧
    (enrolar_organizador (enrolar_organizador demoStore 1 2) 1 2
      = enrolar_organizador demoStore 1 2 ∧
     (enrolar_organizador demoStore 1 2).eventos_organizadores.count (1, 2)
      = 1) :=
  ⟨by decide, C5_enrol_idempotent demoStore 1 2 (by decide)⟩

/-! ### Claim C6 -/

/-- C6: for a student (the non-organizer branch), the listing is exactly the
ACTIVE events, with no ownership filter, and it does not depend on which
user id is logged in. -/
theorem C6_student_listing (s : Store) (u1 u2 : Nat) (E : Evento) :
    (E ∈ lista_eventos s u1 false ↔ E ∈ s.eventos ∧ E.estado = "ACTIVO") ∧
    lista_eventos s u1 false = lista_eventos s u2 false := by
  constructor
  · unfold lista_eventos eventosEstudiante
    simp [List.mem_filter]
  · rfl

/-! ### Claim C7 -/

/-- C7: the candidate list offered for co-organizer enrollment of an event
never contains the event's creator and never contains an already-enrolled
co-organizer; the store-layer upsert itself enforces neither — it accepts
any user id, the creator included. -/
theorem C7_candidate_exclusion (s : Store) (ev : Evento) (u : Usuario)
    (w : Nat) (hc : u ∈ candidatosEnrolar s ev) :
    u.id ≠ ev.usuario_creador_id ∧
    (ev.id, u.id) ∉ s.eventos_organizadores ∧
    (ev.id, w) ∈ (enrolar_organizador s ev.id w).eventos_organizadores := by
  have h2 := (List.mem_filter.1 hc).2
  rw [Bool.and_eq_true] at h2
  have hne : u.id ≠ ev.usuario_creador_id := by
    simpa using h2.1
  have hnc : u.id ∉ ((s.eventos_organizadores.filter
      (fun p => p.1 == ev.id)).map Prod.snd) := by
    simpa using h2.2
  refine ⟨hne, ?_, enrolar_mem s ev.id w⟩
  intro hmem
  exact hnc (List.mem_map.2
    ⟨(ev.id, u.id), List.mem_filter.2 ⟨hmem, by simp⟩, rfl⟩)

/-- C7, instantiated: for event 1 (created by user 1, nobody enrolled), user
2 is offered; user 2 is not the creator, not enrolled, and the store-layer
upsert accepts an arbitrary user id (here 3). -/
theorem C7_witness :
    demoBeto ∈ candidatosEnrolar demoStore demoEvento1 ∧
    (demoBeto.id ≠ demoEvento1.usuario_creador_id ∧
     (demoEvento1.id, demoBeto.id) ∉ demoStore.eventos_organizadores ∧
     (demoEvento1.id, 3) ∈
       (enrolar_organizador demoStore demoEvento1.id 3).eventos_organizadores) :=
  ⟨by decide, C7_candidate_exclusion demoStore demoEvento1 demoBeto 3 (by decide)⟩

/-! ### Claim C8 -/

/-- C8: an attendance record whose user reference resolves to nothing still
produces its detail row and its Excel row — one row per record, none
dropped — and those rows carry empty strings in the username, name and
email fields. -/
theorem C8_missing_user_reference (s : Store) (r : Registro)
    (regs : List Registro) (ed : List (Nat × Evento))
    (ud : List (Nat × Usuario))
    (h1 : joinUsuario s r = none)
    (h2 : dictLookup r.usuario_id ud = none) :
    (detalleVista s regs).1.length + (detalleVista s regs).2.length
      = regs.length ∧
    (filaDetalle s r).username = "" ∧
    (filaDetalle s r).nombre = "" ∧
    (filaDetalle s r).correo = "" ∧
    (regs.map (filaExcel ed ud)).length = regs.length ∧
    (filaExcel ed ud r).username = "" ∧
    (filaExcel ed ud r).nombre_completo = "" ∧
    (filaExcel ed ud r).correo = "" := by
  refine ⟨?_, ?_, ?_, ?_, List.length_map _ _, ?_, ?_, ?_⟩
  · simpa [detalleVista] using detalleVista_length s regs ([], [])
  · simp [filaDetalle, h1]
  · simp only [filaDetalle, h1, Option.map_none', Option.getD_none]
    decide
  · simp [filaDetalle, h1]
  · simp [filaExcel, h2]
  · simp only [filaExcel, h2, Option.map_none', Option.getD_none]
    decide
  · simp [filaExcel, h2]

/-- C8, instantiated: record `demoReg3` references user 99, which matches no
user row; its rows are produced with empty identity fields. -/
theorem C8_witness :
    joinUsuario demoStore demoReg3 = none ∧
    dictLookup demoReg3.usuario_id ([] : List (Nat × Usuario)) = none ∧
    ((detalleVista demoStore [demoReg3]).1.length
        + (detalleVista demoStore [demoReg3]).2.length = [demoReg3].length ∧
     (filaDetalle demoStore demoReg3).username = "" ∧
     (filaDetalle demoStore demoReg3).nombre = "" ∧
     (filaDetalle demoStore demoReg3).correo = "" ∧
     ([demoReg3].map (filaExcel ([] : List (Nat × Evento))
        ([] : List (Nat × Usuario)))).length = [demoReg3].length ∧
     (filaExcel ([] : List (Nat × Evento)) ([] : List (Nat × Usuario))
        demoReg3).username = "" ∧
     (filaExcel ([] : List (Nat × Evento)) ([] : List (Nat × Usuario))
        demoReg3).nombre_completo = "" ∧
     (filaExcel ([] : List (Nat × Evento)) ([] : List (Nat × Usuario))
        demoReg3).correo = "") :=
  ⟨by decide, by decide,
   C8_missing_user_reference demoStore demoReg3 [demoReg3]
     ([] : List (Nat × Evento)) ([] : List (Nat × Usuario))
     (by decide) (by decide)⟩

/-! ### Claim C9 -/

/-- C9: the enrollment view offers every ACTIVE event as a target — even one
outside the logged-in organizer's resolved event set — and the store-layer
upsert then accepts the enrollment into it. -/
theorem C9_enrol_targets_all_active (s : Store) (E : Evento) (uid w : Nat)
    (hmem : E ∈ s.eventos) (hact : E.estado = "ACTIVO")
    (_hout : E ∉ get_eventos_para_organizador s uid) :
    E ∈ eventosParaEnrolar s ∧
    (E.id, w) ∈ (enrolar_organizador s E.id w).eventos_organizadores :=
  ⟨List.mem_filter.2 ⟨hmem, by simp [hact]⟩, enrolar_mem s E.id w⟩

/-- C9, instantiated: student-free organizer 3 resolves no events, yet event
2 is offered for enrollment and user 3 can be enrolled into it. -/
theorem C9_witness :
    demoEvento2 ∈ demoStore.eventos ∧
    demoEvento2.estado = "ACTIVO" ∧
    demoEvento2 ∉ get_eventos_para_organizador demoStore 3 ∧
    (demoEvento2 ∈ eventosParaEnrolar demoStore ∧
     (demoEvento2.id, 3) ∈
       (enrolar_organizador demoStore demoEvento2.id 3).eventos_organizadores) :=
  ⟨by decide, by decide, by decide,
   C9_enrol_targets_all_active demoStore demoEvento2 3 3
     (by decide) (by decide) (by decide)⟩

/-! ### Claim C10 -/

/-- C10: the organizer interface is granted iff the role name string equals
exactly "ORGANIZADOR" — an organizer is routed to the resolved organizer
listing — and any user with any other role name gets the student view
listing all ACTIVE events. -/
theorem C10_role_gate (s : Store) (p : Usuario) (E : Evento) :
    (es_organizador p = true ↔ p.rol_nombre = "ORGANIZADOR") ∧
    (es_organizador p = true →
      mainAppEventos s p = get_eventos_para_organizador s p.id) ∧
    (p.rol_nombre ≠ "ORGANIZADOR" →
      (E ∈ mainAppEventos s p ↔ E ∈ s.eventos ∧ E.estado = "ACTIVO")) := by
  refine ⟨by simp [es_organizador], ?_, ?_⟩
  · intro h
    simp [mainAppEventos, lista_eventos, h]
  · intro h
    have hb : es_organizador p = false := by
      simp [es_organizador, h]
    simp [mainAppEventos, lista_eventos, eventosEstudiante, hb,
      List.mem_filter]

/-- C10, instantiated: `demoCarla`, whose role name is "ESTUDIANTE", gets
the student view listing exactly the ACTIVE events. -/
theorem C10_witness :
    demoCarla.rol_nombre ≠ "ORGANIZADOR" ∧
    ((es_organizador demoCarla = true ↔
        demoCarla.rol_nombre = "ORGANIZADOR") ∧
     (demoEvento1 ∈ mainAppEventos demoStore demoCarla ↔
        demoEvento1 ∈ demoStore.eventos ∧ demoEvento1.estado = "ACTIVO")) :=
  ⟨by decide,
   ⟨(C10_role_gate demoStore demoCarla demoEvento1).1,
    (C10_role_gate demoStore demoCarla demoEvento1).2.2 (by decide)⟩⟩

end CloudTF
